import Mathlib

/-!
Shallow embedding of the points-accounting core of the andela-societies
backend (src/src/api/models.py, src/src/api/utils/helpers.py,
src/src/api/utils/marshmallow_schemas.py,
src/src/api/endpoints/logged_activities.py,
src/src/api/endpoints/redemption_requests.py).

Dates are modelled as absolute day numbers (Int); `today` is passed
explicitly.  Python dicts loaded from JSON are modelled as structures of
Option fields (None / absent key = `none`).  Stateful endpoint handlers
become explicit state-passing functions over a `DB` value; an unhandled
Python exception (TypeError / KeyError / AttributeError) is the `crash`
outcome.  Persistence (session commit) is out of scope per the spec; an
attribute mutation on an ORM object is modelled as an update of the
corresponding DB entry (first match on the primary key, which is how the
SQLAlchemy identity map behaves).
-/

namespace AndelaSocieties

/-! ### Data model (src/src/api/models.py) -/

/-- Society (models.py lines 169-207).  `_total_points` and `_used_points`
are the stored columns; the point properties are derived reads. -/
structure Society where
  uuid : String
  name : String
  total_points_col : Int
  used_points_col : Int
deriving Repr, DecidableEq

/-- Property `total_points` (models.py line 186). -/
def Society.total_points (s : Society) : Int := s.total_points_col

/-- Property `used_points` (models.py line 195). -/
def Society.used_points (s : Society) : Int := s.used_points_col

/-- Property `remaining_points` (models.py line 204): derived, never stored. -/
def Society.remaining_points (s : Society) : Int := s.total_points - s.used_points

/-- Setter `total_points` (models.py line 191): `society.total_points = point`
executes `self._total_points += point.value`; the argument here is that
`point.value`. -/
def Society.creditTotal (s : Society) (point_value : Int) : Society :=
  { s with total_points_col := s.total_points_col + point_value }

/-- Setter `used_points` (models.py line 200): `society.used_points = redemption_request`
executes `self._used_points += redemption_request.value`. -/
def Society.creditUsed (s : Society) (redemption_value : Int) : Society :=
  { s with used_points_col := s.used_points_col + redemption_value }

/-- ActivityType (models.py lines 210-217). -/
structure ActivityType where
  uuid : String
  name : String
  value : Int
  supports_multiple_participants : Bool
deriving Repr, DecidableEq

/-- Activity (models.py lines 220-229). -/
structure Activity where
  uuid : String
  name : String
  activity_type_id : String
  activity_date : Int
deriving Repr, DecidableEq

/-- User (models.py lines 133-158); only the fields the core reads. -/
structure User where
  uuid : String
  name : String
  society_id : Option String
deriving Repr, DecidableEq

/-- LoggedActivity (models.py lines 232-255). -/
structure LoggedActivity where
  uuid : String
  name : Option String
  description : Option String
  photo : Option String
  value : Int
  status : String
  activity_date : Int
  redeemed : Bool
  no_of_participants : Option Int
  activity_type_id : String
  user_id : String
  society_id : String
  activity_id : Option String
deriving Repr, DecidableEq

/-- RedemptionRequest (models.py lines 258-270). -/
structure RedemptionRequest where
  uuid : String
  name : String
  value : Int
  status : String
  user_id : String
  society_id : String
deriving Repr, DecidableEq

/-- The persistent store the handlers run against. -/
structure DB where
  societies : List Society
  users : List User
  activity_types : List ActivityType
  activities : List Activity
  logged_activities : List LoggedActivity
  redemptions : List RedemptionRequest
deriving Repr, DecidableEq

/-! ### Keyed list lookup / first-match update -/

/-- Apply `f` to the first element satisfying `p` (SQLAlchemy identity map:
one live object per primary key, mutated in place). -/
def updateFirst (p : α → Bool) (f : α → α) : List α → List α
  | [] => []
  | x :: xs => if p x then f x :: xs else x :: updateFirst p f xs

/-! ### DB lookups (ORM `query.get` / `query.filter_by(...).first()`) -/

def DB.findSociety (db : DB) (id : String) : Option Society :=
  db.societies.find? (fun s => s.uuid == id)

def DB.findUser (db : DB) (id : String) : Option User :=
  db.users.find? (fun u => u.uuid == id)

def DB.findActivityType (db : DB) (id : String) : Option ActivityType :=
  db.activity_types.find? (fun t => t.uuid == id)

def DB.findActivity (db : DB) (id : String) : Option Activity :=
  db.activities.find? (fun a => a.uuid == id)

def DB.findLoggedActivity (db : DB) (id : String) : Option LoggedActivity :=
  db.logged_activities.find? (fun a => a.uuid == id)

/-- Lookup used by edit/delete: `filter_by(uuid=..., user_id=...)` — the
owner filter (logged_activities.py lines 166-168 and 209-211). -/
def DB.findLoggedActivityFor (db : DB) (id : String) (user : String) :
    Option LoggedActivity :=
  db.logged_activities.find? (fun a => a.uuid == id && a.user_id == user)

def DB.findRedemption (db : DB) (id : String) : Option RedemptionRequest :=
  db.redemptions.find? (fun r => r.uuid == id)

/-! ### DB mutations -/

def DB.updateSociety (db : DB) (id : String) (f : Society → Society) : DB :=
  { db with societies := updateFirst (fun s => s.uuid == id) f db.societies }

def DB.updateLoggedActivity (db : DB) (id : String)
    (f : LoggedActivity → LoggedActivity) : DB :=
  { db with logged_activities :=
      updateFirst (fun a => a.uuid == id) f db.logged_activities }

def DB.updateLoggedActivityFor (db : DB) (id : String) (user : String)
    (f : LoggedActivity → LoggedActivity) : DB :=
  { db with logged_activities :=
      (updateFirst (fun a => a.uuid == id && a.user_id == user) f
        db.logged_activities) }

def DB.updateRedemption (db : DB) (id : String)
    (f : RedemptionRequest → RedemptionRequest) : DB :=
  { db with redemptions :=
      updateFirst (fun r => r.uuid == id) f db.redemptions }

def DB.removeLoggedActivityFor (db : DB) (id : String) (user : String) : DB :=
  { db with logged_activities :=
      db.logged_activities.eraseP (fun a => a.uuid == id && a.user_id == user) }

/-! ### Python truthiness of optional JSON values -/

/-- Truthiness of `d.get(key)` for a string-valued key: `None` and the
empty string are falsy. -/
def strTruthy : Option String → Bool
  | some s => !(s == "")
  | none => false

/-- Truthiness of `d.get(key)` for an integer-valued key: `None` and `0`
are falsy. -/
def intTruthy : Option Int → Bool
  | some n => !(n == 0)
  | none => false

/-- A transport response: HTTP status code plus the message text. -/
structure ApiResponse where
  code : Nat
  message : String
deriving Repr, DecidableEq

/-! ### ActivityValuation (src/src/api/utils/helpers.py lines 27-71) -/

/-- The namedtuple `ParsedResult` (helpers.py line 16). -/
structure ParsedResult where
  activity : Option Activity
  activity_type : ActivityType
  activity_date : Int
  activity_value : Int
deriving Repr, DecidableEq

/-- The `result` dict produced by `log_edit_activity_schema.load`:
`none` fields model absent keys. -/
structure LogActivityInput where
  name : Option String
  description : Option String
  photo : Option String
  activity_id : Option String
  activity_type_id : Option String
  date : Option Int
  no_of_participants : Option Int
deriving Repr, DecidableEq

/-- Outcome of `parse_log_activity_fields`: a `ParsedResult`, an error
response, or an unhandled Python exception (`crash`). -/
inductive ParseOutcome where
  | ok (r : ParsedResult)
  | resp (r : ApiResponse)
  | crash
deriving Repr, DecidableEq

/-- Common tail of `parse_log_activity_fields` (helpers.py lines 59-71):
the staleness check followed by the value computation.  The value
computation reads `result['no_of_participants']` by raw key access, which
raises `KeyError` when the key is absent. -/
def finish_parse (result : LogActivityInput) (today : Int)
    (activity : Option Activity) (activity_type : ActivityType)
    (activity_date : Int) : ParseOutcome :=
  if today - activity_date > 30 then
    .resp ⟨422, "You\x27re late. That activity happened more than 30 days ago"⟩
  else if !activity_type.supports_multiple_participants then
    .ok ⟨activity, activity_type, activity_date, activity_type.value⟩
  else
    match result.no_of_participants with
    | some n => .ok ⟨activity, activity_type, activity_date, activity_type.value * n⟩
    | none => .crash

/-- `parse_log_activity_fields` (helpers.py lines 27-71).  The branch on
`result.get('activity_id')` is Python truthiness; in the else branch
`result['date']` and `result['activity_type_id']` are raw key accesses
(KeyError when absent).  `activity.activity_type` is the ORM relationship;
an unresolvable foreign key makes the subsequent attribute access raise. -/
def parse_log_activity_fields (db : DB) (today : Int)
    (result : LogActivityInput) : ParseOutcome :=
  if strTruthy result.activity_id then
    match db.findActivity (result.activity_id.getD "") with
    | none => .resp ⟨422, "Invalid activity id"⟩
    | some activity =>
      match db.findActivityType activity.activity_type_id with
      | none => .crash
      | some activity_type =>
        if activity_type.supports_multiple_participants &&
            !(intTruthy result.no_of_participants &&
              strTruthy result.description) then
          .resp ⟨400, "Please send the number of interviewees and their names in the description"⟩
        else
          finish_parse result today (some activity) activity_type
            activity.activity_date
  else
    match result.date with
    | none => .crash
    | some activity_date =>
      if activity_date > today then
        .resp ⟨422, "Invalid activity date"⟩
      else
        match result.activity_type_id with
        | none => .crash
        | some atid =>
          match db.findActivityType atid with
          | none => .resp ⟨422, "Invalid activity type id"⟩
          | some activity_type =>
            finish_parse result today none activity_type activity_date

/-! ### LogEditActivitySchema.validate_logged_activity
(src/src/api/utils/marshmallow_schemas.py lines 189-219) -/

/-- Result of the `@validates_schema` method: either it returns, or it
raises a `ValidationError` carrying a message. -/
inductive SchemaCheck where
  | ok
  | error (message : String)
deriving Repr, DecidableEq

/-- The query `ActivityType.query.filter_by(supports_multiple_participants=True)`
mapped to uuids (marshmallow_schemas.py lines 211-212). -/
def multi_participant_activity_ids (db : DB) : List String :=
  (db.activity_types.filter (fun t => t.supports_multiple_participants)).map
    (fun t => t.uuid)

/-- `validate_logged_activity` (marshmallow_schemas.py lines 189-219).
First check: `(atid and aid) or not atid and not aid` (truthiness).
Second check: `atid and not (date and description)` — a loaded date object
is truthy whenever the key is present.  Third check: raw membership of the
`activity_type_id` value in the multi-participant uuid list. -/
def validate_logged_activity (db : DB) (data : LogActivityInput) : SchemaCheck :=
  if (strTruthy data.activity_type_id && strTruthy data.activity_id) ||
      (!strTruthy data.activity_type_id && !strTruthy data.activity_id) then
    .error "Please send either an activityTypeId or an activityId only"
  else if strTruthy data.activity_type_id &&
      !(data.date.isSome && strTruthy data.description) then
    .error "Please send a date and description"
  else if (match data.activity_type_id with
           | some atid => (multi_participant_activity_ids db).contains atid
           | none => false) &&
      !intTruthy data.no_of_participants then
    .error "Please send all required fields for this activity i.e. a date, number of participants and a description"
  else
    .ok

/-! ### Endpoint handlers (src/src/api/endpoints/logged_activities.py,
src/src/api/endpoints/redemption_requests.py) -/

/-- Outcome of a handler that may raise an unhandled exception. -/
inductive PutOutcome where
  | resp (r : ApiResponse)
  | crash
deriving Repr, DecidableEq

/-- Resolve `user.society` (relationship through the nullable
`society_id` column). -/
def DB.userSociety (db : DB) (u : User) : Option Society :=
  match u.society_id with
  | none => none
  | some sid => db.findSociety sid

/-- `LoggedActivitiesAPI.post` (logged_activities.py lines 59-114).
`new_uuid` stands for the generated primary key; `user` is the resolved
`g.current_user`.  The `Bootcamp Interviews` special case (lines 93-103)
reads `result['no_of_participants']` by raw key access. -/
def logged_activities_post (db : DB) (today : Int) (user : User)
    (new_uuid : String) (payload : Option LogActivityInput) :
    PutOutcome × DB :=
  match payload with
  | none => (.resp ⟨400, "Data for creation must be provided."⟩, db)
  | some result =>
    match validate_logged_activity db result with
    | .error m => (.resp ⟨400, m⟩, db)
    | .ok =>
      match db.userSociety user with
      | none => (.resp ⟨422, "You are not a member of any society yet"⟩, db)
      | some society =>
        match parse_log_activity_fields db today result with
        | .crash => (.crash, db)
        | .resp r => (.resp r, db)
        | .ok parsed =>
          let logged_activity : LoggedActivity :=
            { uuid := new_uuid
              name := result.name
              description := result.description
              photo := result.photo
              value := parsed.activity_value
              status := "in review"
              activity_date := parsed.activity_date
              redeemed := false
              no_of_participants := none
              activity_type_id := parsed.activity_type.uuid
              user_id := user.uuid
              society_id := society.uuid
              activity_id := parsed.activity.map (fun a => a.uuid) }
          if parsed.activity_type.name == "Bootcamp Interviews" then
            match result.no_of_participants with
            | none => (.crash, db)
            | some n =>
              if n == 0 then
                (.resp ⟨400, "Data for creation must be provided. (no_of_participants)"⟩, db)
              else
                (.resp ⟨201, "Activity logged successfully"⟩,
                 { db with logged_activities := db.logged_activities ++
                     [{ logged_activity with no_of_participants := some n }] })
          else
            (.resp ⟨201, "Activity logged successfully"⟩,
             { db with logged_activities :=
                 db.logged_activities ++ [logged_activity] })

/-- The field update block of `LoggedActivityAPI.put`
(logged_activities.py lines 186-193). -/
def apply_edit (result : LogActivityInput) (parsed : ParsedResult)
    (a : LoggedActivity) : LoggedActivity :=
  { a with
    name := result.name
    description := result.description
    activity_id := parsed.activity.map (fun x => x.uuid)
    photo := result.photo
    value := parsed.activity_value
    activity_type_id := parsed.activity_type.uuid
    activity_date := parsed.activity_date }

/-- The backfill block of `LoggedActivityAPI.put` (lines 177-181): a
missing (falsy) `activity_type_id` or a missing `date` is taken from the
stored activity before the valuation is re-run. -/
def backfill (result : LogActivityInput) (logged_activity : LoggedActivity) :
    LogActivityInput :=
  { result with
    activity_type_id :=
      (if strTruthy result.activity_type_id then result.activity_type_id
       else some logged_activity.activity_type_id)
    date :=
      (match result.date with
       | some d => some d
       | none => some logged_activity.activity_date) }

/-- `LoggedActivityAPI.put` (logged_activities.py lines 153-204).
Missing `activity_type_id` / `date` are backfilled from the stored
activity before re-running the valuation (lines 177-181). -/
def logged_activity_put (db : DB) (today : Int) (current_user : String)
    (logged_activity_id : String) (payload : Option LogActivityInput) :
    PutOutcome × DB :=
  match payload with
  | none => (.resp ⟨400, "Data for creation must be provided."⟩, db)
  | some result =>
    match validate_logged_activity db result with
    | .error m => (.resp ⟨400, m⟩, db)
    | .ok =>
      match db.findLoggedActivityFor logged_activity_id current_user with
      | none => (.resp ⟨404, "Logged activity does not exist"⟩, db)
      | some logged_activity =>
        if !(logged_activity.status == "in review") then
          (.resp ⟨401, "Not allowed. Activity is already in pre-approval."⟩, db)
        else
          match parse_log_activity_fields db today
              (backfill result logged_activity) with
          | .crash => (.crash, db)
          | .resp r => (.resp r, db)
          | .ok parsed =>
            (.resp ⟨200, "Activity edited successfully"⟩,
             db.updateLoggedActivityFor logged_activity_id current_user
               (apply_edit (backfill result logged_activity) parsed))

/-- `LoggedActivityAPI.delete` (logged_activities.py lines 206-224). -/
def logged_activity_delete (db : DB) (current_user : String)
    (logged_activity_id : String) : ApiResponse × DB :=
  match db.findLoggedActivityFor logged_activity_id current_user with
  | none => (⟨404, "Logged Activity does not exist!"⟩, db)
  | some logged_activity =>
    if !(logged_activity.status == "in review") then
      (⟨403, "You are not allowed to perform this operation"⟩, db)
    else
      (⟨204, ""⟩, db.removeLoggedActivityFor logged_activity_id current_user)

/-- The secretary-review JSON payload: `status` key present or absent. -/
structure SecretaryPayload where
  status : Option String
deriving Repr, DecidableEq

/-- `SecretaryReviewLoggedActivityAPI.put` (logged_activities.py lines
227-257).  With no JSON body `request.get_json(silent=True)` yields
`None`, and `'status' not in payload` raises `TypeError` — the `crash`
outcome.  No check of the current status is performed before the
assignment on line 251. -/
def secretary_review_put (db : DB) (logged_activity_id : String)
    (payload : Option SecretaryPayload) : PutOutcome × DB :=
  match payload with
  | none => (.crash, db)
  | some p =>
    match p.status with
    | none => (.resp ⟨400, "status is required."⟩, db)
    | some status =>
      match db.findLoggedActivity logged_activity_id with
      | none => (.resp ⟨404, "Logged activity not found"⟩, db)
      | some _ =>
        if !(status == "pending" || status == "rejected") then
          (.resp ⟨400, "Invalid status value."⟩, db)
        else
          (.resp ⟨200, "successfully changed status"⟩,
           db.updateLoggedActivity logged_activity_id
             (fun a => { a with status := status }))

/-- The JSON value found at key `loggedActivitiesIds`: a list of id
strings, or a sized non-list value (modelled by its string form). -/
inductive IdsValue where
  | jlist (ids : List String)
  | jstr (s : String)
deriving Repr, DecidableEq

/-- Python `len` of the `loggedActivitiesIds` value. -/
def IdsValue.pyLen : IdsValue → Nat
  | .jlist l => l.length
  | .jstr s => s.length

/-- The bulk-approval JSON payload. -/
structure ApprovalPayload where
  loggedActivitiesIds : Option IdsValue
deriving Repr, DecidableEq

/-- The collection loop of `LoggedActivityApprovalAPI.put`
(logged_activities.py lines 290-299): resolve each id, skip missing,
redeemed, or rejected / in review / approved entries, and deduplicate by
entity identity (the identity map keys entities by primary key). -/
def eligible_step (db : DB) (acc : List LoggedActivity) (i : String) :
    List LoggedActivity :=
  match db.findLoggedActivity i with
  | none => acc
  | some la =>
    if la.redeemed || la.status == "rejected" || la.status == "in review"
        || la.status == "approved" then
      acc
    else if acc.any (fun x => x.uuid == la.uuid) then
      acc
    else
      acc ++ [la]

def collect_eligible (db : DB) (ids : List String) : List LoggedActivity :=
  ids.foldl (eligible_step db) []

/-- One iteration of the mutation loop (logged_activities.py lines
308-311): set the status to approved, then
`society.total_points = logged_activity` which adds the entity's `value`
through the `total_points` setter. -/
def approve_one (db : DB) (la : LoggedActivity) : DB :=
  (db.updateLoggedActivity la.uuid (fun a => { a with status := "approved" })
    ).updateSociety la.society_id (fun s => s.creditTotal la.value)

/-- `LoggedActivityApprovalAPI.put` (logged_activities.py lines 265-333).
Note the order of the guards: the `len(...) > 20` check (line 279) runs
before the `isinstance(..., list)` check (line 284). -/
def approval_put (db : DB) (payload : Option ApprovalPayload) :
    ApiResponse × DB :=
  match payload with
  | none => (⟨400, "Data for creation must be provided."⟩, db)
  | some p =>
    match p.loggedActivitiesIds with
    | none => (⟨400, "loggedActivitiesIds is required"⟩, db)
    | some idsv =>
      if idsv.pyLen > 20 then
        (⟨403, "Sorry, you can not approve more than 20 logged_activities at a go"⟩, db)
      else
        match idsv with
        | .jstr _ =>
          (⟨400, "A List/Array with at least one logged activity id is needed!"⟩, db)
        | .jlist ids =>
          if ids.isEmpty then
            (⟨400, "A List/Array with at least one logged activity id is needed!"⟩, db)
          else
            match collect_eligible db ids with
            | [] =>
              (⟨400, "Invalid logged activities or no pending logged activities in request"⟩, db)
            | la :: rest =>
              (⟨200, "Activity edited successfully"⟩,
               (la :: rest).foldl approve_one db)

/-- `LoggedActivityRejectionAPI.put` (logged_activities.py lines 336-375):
single-item rejection, only permitted from `pending`. -/
def rejection_put (db : DB) (logged_activity_id : Option String) :
    ApiResponse × DB :=
  match logged_activity_id with
  | none => (⟨400, "loggedActivitiesIds is required"⟩, db)
  | some i =>
    match db.findLoggedActivity i with
    | none => (⟨404, "Logged activity not found"⟩, db)
    | some la =>
      if la.status == "pending" then
        (⟨200, "Activity successfully rejected"⟩,
         db.updateLoggedActivity i (fun a => { a with status := "rejected" }))
      else
        (⟨403, "This logged activity is either in-review, approved or already rejected"⟩, db)

/-- The approve/reject JSON payload for redemption requests: the
`status` key, present or absent. -/
structure RedemptionPayload where
  status : Option String
deriving Repr, DecidableEq

/-- `PointRedemptionRequestNumeration.put`
(redemption_requests.py lines 204-250).  There is no check of the
current status of the request: every call with `status == "approved"`
walks `redemp_request.user` to the user's current society and credits
`used_points` through the setter; any other status value is stored as
is.  A user without a resolvable society makes
`society.used_points = ...` raise (`crash`). -/
def redemption_numeration_put (db : DB) (redeem_id : Option String)
    (payload : Option RedemptionPayload) : PutOutcome × DB :=
  match payload with
  | none => (.resp ⟨400, "Data for editing must be provided"⟩, db)
  | some p =>
    match redeem_id with
    | none => (.resp ⟨400, "RedemptionRequest id must be provided."⟩, db)
    | some rid =>
      match p.status with
      | none => (.resp ⟨400, "Missing fields"⟩, db)
      | some status =>
        match db.findRedemption rid with
        | none => (.resp ⟨404, "Resource does not exist."⟩, db)
        | some redemp_request =>
          if status == "approved" then
            match db.findUser redemp_request.user_id with
            | none => (.crash, db)
            | some user =>
              match user.society_id with
              | none => (.crash, db)
              | some sid =>
                match db.findSociety sid with
                | none => (.crash, db)
                | some _ =>
                  (.resp ⟨200, "RedemptionRequest status changed to approved"⟩,
                   (db.updateSociety sid
                       (fun s => s.creditUsed redemp_request.value)
                     ).updateRedemption rid
                       (fun r => { r with status := status }))
          else
            (.resp ⟨200, "RedemptionRequest status changed to " ++ status⟩,
             db.updateRedemption rid (fun r => { r with status := status }))

/-! ### The core's mutating operations as one step relation -/

/-- One invocation of a mutating operation of the embedded core. -/
inductive CoreOp where
  | submitActivity (today : Int) (user : User) (new_uuid : String)
      (payload : Option LogActivityInput)
  | editActivity (today : Int) (current_user : String) (id : String)
      (payload : Option LogActivityInput)
  | deleteActivity (current_user : String) (id : String)
  | secretaryReview (id : String) (payload : Option SecretaryPayload)
  | approveActivities (payload : Option ApprovalPayload)
  | rejectActivity (id : Option String)
  | numerateRedemption (id : Option String) (payload : Option RedemptionPayload)

/-- The state reached after running one operation. -/
def applyOp (db : DB) : CoreOp → DB
  | .submitActivity today user new_uuid payload =>
    (logged_activities_post db today user new_uuid payload).2
  | .editActivity today current_user id payload =>
    (logged_activity_put db today current_user id payload).2
  | .deleteActivity current_user id =>
    (logged_activity_delete db current_user id).2
  | .secretaryReview id payload => (secretary_review_put db id payload).2
  | .approveActivities payload => (approval_put db payload).2
  | .rejectActivity id => (rejection_put db id).2
  | .numerateRedemption id payload =>
    (redemption_numeration_put db id payload).2

/-- Sum of the values of the logged activities of a batch that belong to
the society with uuid `u`. -/
def society_credit_sum (u : String) (las : List LoggedActivity) : Int :=
  ((las.filter (fun la => la.society_id == u)).map (fun la => la.value)).sum

/-! ### Concrete states used by witnesses and counterexamples -/

def exTypeSingle : ActivityType :=
  { uuid := "at1", name := "Blog post", value := 10,
    supports_multiple_participants := false }

def exTypeMulti : ActivityType :=
  { uuid := "at2", name := "Hackathon", value := 10,
    supports_multiple_participants := true }

def exSociety : Society :=
  { uuid := "s1", name := "Phoenix", total_points_col := 100,
    used_points_col := 30 }

def exUser : User :=
  { uuid := "u1", name := "Test Fellow", society_id := some "s1" }

def exPendingLA : LoggedActivity :=
  { uuid := "la1", name := some "wrote a post", description := some "post",
    photo := none, value := 25, status := "pending", activity_date := 70,
    redeemed := false, no_of_participants := none, activity_type_id := "at1",
    user_id := "u1", society_id := "s1", activity_id := none }

def exApprovedLA : LoggedActivity :=
  { exPendingLA with uuid := "la2", status := "approved" }

def exInReviewLA : LoggedActivity :=
  { exPendingLA with uuid := "la3", status := "in review" }

def exRedemption : RedemptionRequest :=
  { uuid := "r1", name := "team event", value := 40, status := "approved",
    user_id := "u1", society_id := "s1" }

def exPendingRedemption : RedemptionRequest :=
  { uuid := "r2", name := "snacks", value := 5, status := "pending",
    user_id := "u1", society_id := "s1" }

def exActivity : Activity :=
  { uuid := "act1", name := "open source day", activity_type_id := "at1",
    activity_date := 70 }

def exDB : DB :=
  { societies := [exSociety], users := [exUser],
    activity_types := [exTypeSingle, exTypeMulti],
    activities := [exActivity],
    logged_activities := [exPendingLA, exApprovedLA, exInReviewLA],
    redemptions := [exRedemption, exPendingRedemption] }

def exEditInput : LogActivityInput :=
  { name := some "edited name", description := some "edited description",
    photo := none, activity_id := none, activity_type_id := some "at1",
    date := some 80, no_of_participants := none }

/-- Discriminator used to state that a trace contains no redemption
approval/rejection call. -/
def CoreOp.isRedemptionOp : CoreOp → Bool
  | .numerateRedemption _ _ => true
  | _ => false

/-- A submission against the multi-participant type `at2` carrying
`no_of_participants = -3`: every field the schema checks is truthy
(`-3` is a truthy Python int), so validation accepts it and the
valuation computes `10 * (-3) = -30`. -/
def exNegInput : LogActivityInput :=
  { name := some "negative participants",
    description := some "interview names", photo := none,
    activity_id := none, activity_type_id := some "at2",
    date := some 80, no_of_participants := some (-3) }

/-- A trace of core operations: submit the negative-valued activity,
secretary-review it to pending, then bulk-approve it. -/
def exNegOps : List CoreOp :=
  [CoreOp.submitActivity 100 exUser "neg1" (some exNegInput),
   CoreOp.secretaryReview "neg1" (some ⟨some "pending"⟩),
   CoreOp.approveActivities (some ⟨some (.jlist ["neg1"])⟩)]

/-! ### Generic lemmas about first-match updates -/

theorem find?_updateFirst_pres (l : List α) (p : α → Bool) (f : α → α)
    (hpres : ∀ a, p a = true → p (f a) = true) :
    (updateFirst p f l).find? p = (l.find? p).map f := by
  induction l with
  | nil => simp [updateFirst]
  | cons x xs ih =>
    by_cases hx : p x = true
    · simp [updateFirst, hx, List.find?_cons, hpres x hx]
    · have hx' : p x = false := by simpa using hx
      simp [updateFirst, hx', List.find?_cons, ih]

theorem find?_updateFirst_other (l : List α) (p q : α → Bool) (f : α → α)
    (hdisj : ∀ a, p a = true → q a = false)
    (hpres : ∀ a, p a = true → q (f a) = false) :
    (updateFirst p f l).find? q = l.find? q := by
  induction l with
  | nil => simp [updateFirst]
  | cons x xs ih =>
    by_cases hx : p x = true
    · simp [updateFirst, hx, List.find?_cons, hdisj x hx, hpres x hx]
    · have hx' : p x = false := by simpa using hx
      simp [updateFirst, hx', List.find?_cons, ih]

/-! ### Framing lemmas: lookups across first-match updates -/

theorem DB.findSociety_updateSociety (db : DB) (id u : String)
    (f : Society → Society) (hf : ∀ s, (f s).uuid = s.uuid) :
    (db.updateSociety id f).findSociety u =
      if u = id then (db.findSociety u).map f else db.findSociety u := by
  unfold DB.updateSociety DB.findSociety
  by_cases h : u = id
  · subst h
    rw [if_pos rfl]
    exact find?_updateFirst_pres _ _ _ (fun a ha => by rw [hf]; exact ha)
  · rw [if_neg h]
    refine find?_updateFirst_other _ _ _ _ (fun a ha => ?_) (fun a ha => ?_)
    · have : a.uuid = id := by simpa using ha
      simp [this, Ne.symm h]
    · have : a.uuid = id := by simpa using ha
      simp [hf, this, Ne.symm h]

theorem DB.findLoggedActivity_updateLoggedActivity (db : DB) (id u : String)
    (f : LoggedActivity → LoggedActivity) (hf : ∀ a, (f a).uuid = a.uuid) :
    (db.updateLoggedActivity id f).findLoggedActivity u =
      if u = id then (db.findLoggedActivity u).map f
      else db.findLoggedActivity u := by
  unfold DB.updateLoggedActivity DB.findLoggedActivity
  by_cases h : u = id
  · subst h
    rw [if_pos rfl]
    exact find?_updateFirst_pres _ _ _ (fun a ha => by rw [hf]; exact ha)
  · rw [if_neg h]
    refine find?_updateFirst_other _ _ _ _ (fun a ha => ?_) (fun a ha => ?_)
    · have : a.uuid = id := by simpa using ha
      simp [this, Ne.symm h]
    · have : a.uuid = id := by simpa using ha
      simp [hf, this, Ne.symm h]

theorem DB.findRedemption_updateRedemption (db : DB) (id u : String)
    (f : RedemptionRequest → RedemptionRequest)
    (hf : ∀ r, (f r).uuid = r.uuid) :
    (db.updateRedemption id f).findRedemption u =
      if u = id then (db.findRedemption u).map f else db.findRedemption u := by
  unfold DB.updateRedemption DB.findRedemption
  by_cases h : u = id
  · subst h
    rw [if_pos rfl]
    exact find?_updateFirst_pres _ _ _ (fun a ha => by rw [hf]; exact ha)
  · rw [if_neg h]
    refine find?_updateFirst_other _ _ _ _ (fun a ha => ?_) (fun a ha => ?_)
    · have : a.uuid = id := by simpa using ha
      simp [this, Ne.symm h]
    · have : a.uuid = id := by simpa using ha
      simp [hf, this, Ne.symm h]

theorem DB.findLoggedActivityFor_updateLoggedActivityFor (db : DB)
    (id user : String) (f : LoggedActivity → LoggedActivity)
    (hf : ∀ a, (f a).uuid = a.uuid ∧ (f a).user_id = a.user_id) :
    (db.updateLoggedActivityFor id user f).findLoggedActivityFor id user =
      (db.findLoggedActivityFor id user).map f := by
  unfold DB.updateLoggedActivityFor DB.findLoggedActivityFor
  refine find?_updateFirst_pres _ _ _ (fun a ha => ?_)
  rw [(hf a).1, (hf a).2]
  exact ha

/-- Updating a first-match entry never changes the other tables. -/
theorem DB.societies_updateLoggedActivity (db : DB) (id : String)
    (f : LoggedActivity → LoggedActivity) :
    (db.updateLoggedActivity id f).societies = db.societies := rfl

theorem DB.societies_updateRedemption (db : DB) (id : String)
    (f : RedemptionRequest → RedemptionRequest) :
    (db.updateRedemption id f).societies = db.societies := rfl

theorem DB.logged_activities_updateSociety (db : DB) (id : String)
    (f : Society → Society) :
    (db.updateSociety id f).logged_activities = db.logged_activities := rfl

theorem DB.findSociety_eq_of_societies (db1 db2 : DB)
    (h : db1.societies = db2.societies) (u : String) :
    db1.findSociety u = db2.findSociety u := by
  unfold DB.findSociety
  rw [h]

theorem DB.findLoggedActivity_eq_of_logged (db1 db2 : DB)
    (h : db1.logged_activities = db2.logged_activities) (u : String) :
    db1.findLoggedActivity u = db2.findLoggedActivity u := by
  unfold DB.findLoggedActivity
  rw [h]

theorem DB.findSociety_updateLoggedActivity (db : DB) (id u : String)
    (f : LoggedActivity → LoggedActivity) :
    (db.updateLoggedActivity id f).findSociety u = db.findSociety u := rfl

theorem DB.findLoggedActivity_updateSociety (db : DB) (id u : String)
    (f : Society → Society) :
    (db.updateSociety id f).findLoggedActivity u = db.findLoggedActivity u := rfl

theorem DB.findRedemption_updateSociety (db : DB) (id u : String)
    (f : Society → Society) :
    (db.updateSociety id f).findRedemption u = db.findRedemption u := rfl

theorem DB.findSociety_updateRedemption (db : DB) (id u : String)
    (f : RedemptionRequest → RedemptionRequest) :
    (db.updateRedemption id f).findSociety u = db.findSociety u := rfl

/-! ### Lemmas about the bulk-approval mutation loop -/

theorem approve_one_findSociety (db : DB) (la : LoggedActivity) (u : String) :
    (approve_one db la).findSociety u =
      if u = la.society_id then
        (db.findSociety u).map (fun s => s.creditTotal la.value)
      else db.findSociety u := by
  unfold approve_one
  rw [DB.findSociety_updateSociety _ la.society_id u
    (fun s => s.creditTotal la.value) (fun s => rfl)]
  rw [DB.findSociety_updateLoggedActivity]

theorem approve_one_findLoggedActivity (db : DB) (la : LoggedActivity)
    (j : String) :
    (approve_one db la).findLoggedActivity j =
      if j = la.uuid then
        (db.findLoggedActivity j).map (fun a => { a with status := "approved" })
      else db.findLoggedActivity j := by
  unfold approve_one
  rw [DB.findLoggedActivity_updateSociety]
  exact DB.findLoggedActivity_updateLoggedActivity db la.uuid j _ (fun a => rfl)

theorem society_credit_sum_cons (u : String) (la : LoggedActivity)
    (rest : List LoggedActivity) :
    society_credit_sum u (la :: rest) =
      if la.society_id = u then la.value + society_credit_sum u rest
      else society_credit_sum u rest := by
  unfold society_credit_sum
  rw [List.filter_cons]
  by_cases h : la.society_id = u
  · simp [h]
  · simp [h]

theorem foldl_approve_findSociety (las : List LoggedActivity) (db : DB)
    (u : String) :
    (las.foldl approve_one db).findSociety u =
      (db.findSociety u).map
        (fun s => s.creditTotal (society_credit_sum u las)) := by
  induction las generalizing db with
  | nil =>
    cases h : db.findSociety u <;>
      simp [h, society_credit_sum, Society.creditTotal]
  | cons la rest ih =>
    rw [List.foldl_cons, ih, approve_one_findSociety,
      society_credit_sum_cons]
    by_cases hu : u = la.society_id
    · rw [if_pos hu, if_pos hu.symm]
      cases h : db.findSociety u <;>
        simp [Society.creditTotal, add_assoc]
    · rw [if_neg hu, if_neg (fun hh => hu hh.symm)]

theorem foldl_approve_findLoggedActivity (las : List LoggedActivity)
    (db : DB) (j : String) :
    (las.foldl approve_one db).findLoggedActivity j =
      if las.any (fun la => la.uuid == j) then
        (db.findLoggedActivity j).map
          (fun a => { a with status := "approved" })
      else db.findLoggedActivity j := by
  induction las generalizing db with
  | nil => simp
  | cons la rest ih =>
    rw [List.foldl_cons, ih, approve_one_findLoggedActivity, List.any_cons]
    by_cases hj : j = la.uuid
    · have hb : (la.uuid == j) = true := by simp [hj]
      rw [if_pos hj, hb, Bool.true_or, if_pos rfl]
      by_cases hrest : rest.any (fun x => x.uuid == j) = true
      · rw [if_pos hrest]
        cases h : db.findLoggedActivity j <;> simp
      · rw [if_neg (by simp [hrest])]
    · have hb : (la.uuid == j) = false := by simp [Ne.symm hj]
      rw [if_neg hj, hb, Bool.false_or]

theorem eligible_step_sound (db : DB) (acc : List LoggedActivity)
    (i : String) :
    ∀ la ∈ eligible_step db acc i, la ∈ acc ∨
      (db.findLoggedActivity la.uuid = some la ∧ la ∈ db.logged_activities ∧
       la.redeemed = false ∧ la.status ≠ "rejected" ∧
       la.status ≠ "in review" ∧ la.status ≠ "approved") := by
  intro x hx
  unfold eligible_step at hx
  cases hfind : db.findLoggedActivity i with
  | none =>
    simp only [hfind] at hx
    exact Or.inl hx
  | some la =>
    simp only [hfind] at hx
    by_cases hg : (la.redeemed || la.status == "rejected" ||
        la.status == "in review" || la.status == "approved") = true
    · rw [if_pos hg] at hx
      exact Or.inl hx
    · rw [if_neg hg] at hx
      by_cases hdup : acc.any (fun y => y.uuid == la.uuid) = true
      · rw [if_pos hdup] at hx
        exact Or.inl hx
      · rw [if_neg hdup] at hx
        rcases List.mem_append.mp hx with h | h
        · exact Or.inl h
        · have hxla : x = la := by simpa using h
          subst hxla
          have huuid : x.uuid = i := by
            have := List.find?_some hfind
            simpa using this
          have hmem : x ∈ db.logged_activities :=
            List.mem_of_find?_eq_some hfind
          simp only [Bool.or_eq_true, not_or] at hg
          refine Or.inr ⟨?_, hmem, ?_, ?_, ?_, ?_⟩
          · rw [huuid]; exact hfind
          · simpa using hg.1.1.1
          · simpa using hg.1.1.2
          · simpa using hg.1.2
          · simpa using hg.2

theorem collect_eligible_sound (db : DB) (ids : List String) :
    ∀ la ∈ collect_eligible db ids,
      db.findLoggedActivity la.uuid = some la ∧ la ∈ db.logged_activities ∧
      la.redeemed = false ∧ la.status ≠ "rejected" ∧
      la.status ≠ "in review" ∧ la.status ≠ "approved" := by
  unfold collect_eligible
  have haux : ∀ (l : List String) (acc : List LoggedActivity),
      (∀ la ∈ acc, db.findLoggedActivity la.uuid = some la ∧
        la ∈ db.logged_activities ∧ la.redeemed = false ∧
        la.status ≠ "rejected" ∧ la.status ≠ "in review" ∧
        la.status ≠ "approved") →
      ∀ la ∈ l.foldl (eligible_step db) acc,
        db.findLoggedActivity la.uuid = some la ∧
        la ∈ db.logged_activities ∧ la.redeemed = false ∧
        la.status ≠ "rejected" ∧ la.status ≠ "in review" ∧
        la.status ≠ "approved" := by
    intro l
    induction l with
    | nil => intro acc hacc; simpa using hacc
    | cons i rest ih =>
      intro acc hacc
      rw [List.foldl_cons]
      refine ih _ (fun la hla => ?_)
      rcases eligible_step_sound db acc i la hla with h | h
      · exact hacc la h
      · exact h
  exact haux ids [] (by simp)

/-! ### Lemmas about the valuation helper -/

theorem finish_parse_ok_facts (result : LogActivityInput) (today : Int)
    (activity : Option Activity) (atype : ActivityType) (d : Int)
    (r : ParsedResult)
    (h : finish_parse result today activity atype d = .ok r) :
    r.activity = activity ∧ r.activity_type = atype ∧ r.activity_date = d ∧
    (atype.supports_multiple_participants = false →
      r.activity_value = atype.value) ∧
    (atype.supports_multiple_participants = true →
      ∃ n, result.no_of_participants = some n ∧
        r.activity_value = atype.value * n) := by
  unfold finish_parse at h
  by_cases hstale : today - d > 30
  · simp [hstale] at h
  · by_cases hm : atype.supports_multiple_participants = true
    · cases hn : result.no_of_participants with
      | none => simp [hstale, hm, hn] at h
      | some n =>
        simp only [hstale, if_false, hm, Bool.not_true, hn] at h
        cases h
        exact ⟨rfl, rfl, rfl, by simp [hm], fun _ => ⟨n, rfl, rfl⟩⟩
    · have hm' : atype.supports_multiple_participants = false := by
        simpa using hm
      simp only [hm', Bool.not_false] at h
      rw [if_neg hstale] at h
      rw [if_pos (by trivial)] at h
      cases h
      exact ⟨rfl, rfl, rfl, fun _ => rfl, by simp [hm']⟩

theorem parse_ok_finish (db : DB) (today : Int) (data : LogActivityInput)
    (r : ParsedResult)
    (h : parse_log_activity_fields db today data = .ok r) :
    ∃ act atype d, finish_parse data today act atype d = .ok r := by
  unfold parse_log_activity_fields at h
  by_cases ha : strTruthy data.activity_id = true
  · rw [if_pos ha] at h
    cases hact : db.findActivity (data.activity_id.getD "") with
    | none => simp [hact] at h
    | some act =>
      simp only [hact] at h
      cases htype : db.findActivityType act.activity_type_id with
      | none => simp [htype] at h
      | some atype =>
        simp only [htype] at h
        by_cases hcond : (atype.supports_multiple_participants &&
            !(intTruthy data.no_of_participants &&
              strTruthy data.description)) = true
        · rw [if_pos hcond] at h
          simp at h
        · rw [if_neg hcond] at h
          exact ⟨some act, atype, act.activity_date, h⟩
  · rw [if_neg ha] at h
    cases hd : data.date with
    | none => simp [hd] at h
    | some d =>
      simp only [hd] at h
      by_cases hfut : d > today
      · rw [if_pos hfut] at h
        simp at h
      · rw [if_neg hfut] at h
        cases hat : data.activity_type_id with
        | none => simp [hat] at h
        | some atid =>
          simp only [hat] at h
          cases htype : db.findActivityType atid with
          | none => simp [htype] at h
          | some atype =>
            simp only [htype] at h
            exact ⟨none, atype, d, h⟩

/-! ### Claim theorems -/

/-- C10: invoking secretary review with a request that carries no JSON
payload does not terminate with a structured response: the handler
evaluates `'status' not in None`, which raises TypeError, so the call
crashes (the code contradicts the spec's local-recovery rule here;
every other handler guards the missing payload first). -/
theorem secretary_review_none_payload_crashes (db : DB) (id : String) :
    secretary_review_put db id none = (.crash, db) := rfl

/-- C9: on submission, a payload carrying both `activity_id` and
`activity_type_id` fails schema validation, and a payload carrying
neither fails with the same validation error. -/
theorem exactly_one_activity_reference (db : DB) (data : LogActivityInput) :
    (strTruthy data.activity_id = true →
      strTruthy data.activity_type_id = true →
      validate_logged_activity db data =
        .error "Please send either an activityTypeId or an activityId only") ∧
    (strTruthy data.activity_id = false →
      strTruthy data.activity_type_id = false →
      validate_logged_activity db data =
        .error "Please send either an activityTypeId or an activityId only") := by
  constructor
  · intro h1 h2
    unfold validate_logged_activity
    rw [if_pos (by simp [h1, h2])]
  · intro h1 h2
    unfold validate_logged_activity
    rw [if_pos (by simp [h1, h2])]

/-- Witness for C9: concrete payloads with both references and with
neither reference are rejected. -/
theorem exactly_one_activity_reference_witness :
    validate_logged_activity exDB
        { name := none, description := none, photo := none,
          activity_id := some "act1", activity_type_id := some "at1",
          date := none, no_of_participants := none } =
      .error "Please send either an activityTypeId or an activityId only" ∧
    validate_logged_activity exDB
        { name := none, description := none, photo := none,
          activity_id := none, activity_type_id := none,
          date := none, no_of_participants := none } =
      .error "Please send either an activityTypeId or an activityId only" :=
  ⟨(exactly_one_activity_reference exDB _).1 (by decide) (by decide),
   (exactly_one_activity_reference exDB _).2 (by decide) (by decide)⟩

/-- C4 counterexample: secretary review moves an item whose status is
already `approved` back to `pending` and reports success, so the
transition is not restricted to the `in review` state. -/
theorem secretary_review_moves_approved_item :
    (exDB.findLoggedActivity "la2").map LoggedActivity.status =
      some "approved" ∧
    (secretary_review_put exDB "la2" (some ⟨some "pending"⟩)).1 =
      .resp ⟨200, "successfully changed status"⟩ ∧
    ((secretary_review_put exDB "la2"
        (some ⟨some "pending"⟩)).2.findLoggedActivity "la2").map
      LoggedActivity.status = some "pending" := by
  decide

/-- C4 (amended): secretary review sets the item's status to the
explicitly requested `pending` or `rejected` value whatever the current
status is — there is no in-review-only guard — and any other requested
status value is a validation failure that leaves the store unchanged. -/
theorem secretary_review_sets_status_unguarded (db : DB) (id : String)
    (p : SecretaryPayload) (st : String) :
    (p.status = some st → (st = "pending" ∨ st = "rejected") →
      (db.findLoggedActivity id).isSome = true →
      secretary_review_put db id (some p) =
        (.resp ⟨200, "successfully changed status"⟩,
         db.updateLoggedActivity id (fun a => { a with status := st }))) ∧
    (p.status = some st → ¬(st = "pending" ∨ st = "rejected") →
      (db.findLoggedActivity id).isSome = true →
      secretary_review_put db id (some p) =
        (.resp ⟨400, "Invalid status value."⟩, db)) ∧
    (p.status = none →
      secretary_review_put db id (some p) =
        (.resp ⟨400, "status is required."⟩, db)) := by
  refine ⟨?_, ?_, ?_⟩
  · intro hst hval hfound
    unfold secretary_review_put
    cases hf : db.findLoggedActivity id with
    | none => rw [hf] at hfound; simp at hfound
    | some la =>
      have hcond : (!(st == "pending" || st == "rejected")) = false := by
        rcases hval with h | h <;> simp [h]
      simp only [hst, hf, hcond]
      simp
  · intro hst hval hfound
    unfold secretary_review_put
    cases hf : db.findLoggedActivity id with
    | none => rw [hf] at hfound; simp at hfound
    | some la =>
      push_neg at hval
      have hcond : (!(st == "pending" || st == "rejected")) = true := by
        simp [hval.1, hval.2]
      simp only [hst, hf, hcond]
      simp
  · intro hst
    unfold secretary_review_put
    simp only [hst]

/-- Witness for C4: the amended theorem applied to a concrete store,
moving an approved item to pending and rejecting a bogus status value. -/
theorem secretary_review_sets_status_unguarded_witness :
    secretary_review_put exDB "la2" (some ⟨some "pending"⟩) =
      (.resp ⟨200, "successfully changed status"⟩,
       exDB.updateLoggedActivity "la2"
         (fun a => { a with status := "pending" })) ∧
    secretary_review_put exDB "la1" (some ⟨some "banana"⟩) =
      (.resp ⟨400, "Invalid status value."⟩, exDB) ∧
    secretary_review_put exDB "la1" (some ⟨none⟩) =
      (.resp ⟨400, "status is required."⟩, exDB) :=
  ⟨(secretary_review_sets_status_unguarded exDB "la2" ⟨some "pending"⟩
      "pending").1 rfl (Or.inl rfl) (by decide),
   (secretary_review_sets_status_unguarded exDB "la1" ⟨some "banana"⟩
      "banana").2.1 rfl (by decide) (by decide),
   (secretary_review_sets_status_unguarded exDB "la1" ⟨none⟩
      "banana").2.2 rfl⟩

/-- C1 counterexample: re-approving the already-approved redemption
request `r1` (value 40) reports success and credits `used_points` again
(30 to 70), so approval is not restricted to pending requests and is not
a once-only credit. -/
theorem redemption_reapproval_double_credit :
    (exDB.findRedemption "r1").map RedemptionRequest.status =
      some "approved" ∧
    (redemption_numeration_put exDB (some "r1")
        (some ⟨some "approved"⟩)).1 =
      .resp ⟨200, "RedemptionRequest status changed to approved"⟩ ∧
    ((redemption_numeration_put exDB (some "r1")
        (some ⟨some "approved"⟩)).2.findSociety "s1").map
      Society.used_points = some 70 ∧
    (exDB.findSociety "s1").map Society.used_points = some 30 := by
  decide

/-- C1 (amended): the approve/reject endpoint has no pending-only guard.
Every call whose explicit status is `approved` credits `used_points` on
the requesting user's society by exactly the request's value — once per
call, so an already-approved request is credited again — and any other
status value is simply stored on the request, leaving every society's
ledger unchanged. -/
theorem redemption_numeration_no_pending_guard (db : DB) (rid : String)
    (p : RedemptionPayload) (st : String) (r : RedemptionRequest) :
    (p.status = some "approved" → db.findRedemption rid = some r →
      ∀ u sid s, db.findUser r.user_id = some u → u.society_id = some sid →
        db.findSociety sid = some s →
        redemption_numeration_put db (some rid) (some p) =
          (.resp ⟨200, "RedemptionRequest status changed to approved"⟩,
           ((db.updateSociety sid (fun x => x.creditUsed r.value)
             ).updateRedemption rid (fun x => { x with status := "approved" }))) ∧
        (redemption_numeration_put db (some rid) (some p)).2.findSociety sid =
          some (s.creditUsed r.value) ∧
        (∀ v, v ≠ sid →
          (redemption_numeration_put db (some rid) (some p)).2.findSociety v =
            db.findSociety v)) ∧
    (p.status = some st → st ≠ "approved" → db.findRedemption rid = some r →
      redemption_numeration_put db (some rid) (some p) =
        (.resp ⟨200, "RedemptionRequest status changed to " ++ st⟩,
         db.updateRedemption rid (fun x => { x with status := st })) ∧
      (∀ v,
        (redemption_numeration_put db (some rid) (some p)).2.findSociety v =
          db.findSociety v)) := by
  constructor
  · intro hst hr u sid s hu hsid hs
    have heq : redemption_numeration_put db (some rid) (some p) =
        (.resp ⟨200, "RedemptionRequest status changed to approved"⟩,
         ((db.updateSociety sid (fun x => x.creditUsed r.value)
           ).updateRedemption rid
             (fun x => { x with status := "approved" }))) := by
      unfold redemption_numeration_put
      simp only [hst, hr, hu, hsid, hs]
      simp
    refine ⟨heq, ?_, ?_⟩
    · rw [heq]
      show ((db.updateSociety sid (fun x => x.creditUsed r.value)
        ).updateRedemption rid
          (fun x => { x with status := "approved" })).findSociety sid = _
      rw [DB.findSociety_updateRedemption,
        DB.findSociety_updateSociety _ sid sid
          (fun x => x.creditUsed r.value) (fun x => rfl), if_pos rfl, hs]
      rfl
    · intro v hv
      rw [heq]
      show ((db.updateSociety sid (fun x => x.creditUsed r.value)
        ).updateRedemption rid
          (fun x => { x with status := "approved" })).findSociety v = _
      rw [DB.findSociety_updateRedemption,
        DB.findSociety_updateSociety _ sid v
          (fun x => x.creditUsed r.value) (fun x => rfl), if_neg hv]
  · intro hst hne hr
    have heq : redemption_numeration_put db (some rid) (some p) =
        (.resp ⟨200, "RedemptionRequest status changed to " ++ st⟩,
         db.updateRedemption rid (fun x => { x with status := st })) := by
      unfold redemption_numeration_put
      have hcond : (st == "approved") = false := by simp [hne]
      simp only [hst, hr, hcond]
      simp
    refine ⟨heq, fun v => ?_⟩
    rw [heq]
    exact DB.findSociety_updateRedemption db rid v _

/-- Witness for C1: approving the pending request `r2` (value 5) credits
`used_points` 30 to 35 on society `s1`, and rejecting `r1` only rewrites
its status. -/
theorem redemption_numeration_no_pending_guard_witness :
    (redemption_numeration_put exDB (some "r2")
        (some ⟨some "approved"⟩)).2.findSociety "s1" =
      some (exSociety.creditUsed 5) ∧
    redemption_numeration_put exDB (some "r1")
        (some ⟨some "rejected"⟩) =
      (.resp ⟨200, "RedemptionRequest status changed to " ++ "rejected"⟩,
       exDB.updateRedemption "r1" (fun x => { x with status := "rejected" })) :=
  ⟨((redemption_numeration_no_pending_guard exDB "r2" ⟨some "approved"⟩
      "approved" exPendingRedemption).1 rfl (by decide) exUser "s1" exSociety
      (by decide) rfl (by decide)).2.1,
   ((redemption_numeration_no_pending_guard exDB "r1" ⟨some "rejected"⟩
      "rejected" exRedemption).2 rfl (by decide) (by decide)).1⟩

/-- C2: approving a pending, unredeemed logged activity credits the
owning society's `total_points` by exactly the item's stored value (other
societies untouched), marks the item approved, and does so once even when
the id is duplicated in the batch; an item that is already approved,
rejected, in review, or redeemed is skipped, so a repeat approval call
fails without touching the store and is never a second credit. -/
theorem logged_activity_approval_credits_once (db : DB) (i : String)
    (la : LoggedActivity) (s : Society) :
    (db.findLoggedActivity i = some la → la.status = "pending" →
      la.redeemed = false → db.findSociety la.society_id = some s →
      (approval_put db (some ⟨some (.jlist [i])⟩)).1.code = 200 ∧
      (approval_put db (some ⟨some (.jlist [i])⟩)).2.findSociety
          la.society_id = some (s.creditTotal la.value) ∧
      (approval_put db (some ⟨some (.jlist [i])⟩)).2.findLoggedActivity i =
        some { la with status := "approved" } ∧
      (∀ u, u ≠ la.society_id →
        (approval_put db (some ⟨some (.jlist [i])⟩)).2.findSociety u =
          db.findSociety u) ∧
      (approval_put db (some ⟨some (.jlist [i, i])⟩)).2.findSociety
          la.society_id = some (s.creditTotal la.value)) ∧
    (db.findLoggedActivity i = some la →
      (la.redeemed = true ∨ la.status = "rejected" ∨
        la.status = "in review" ∨ la.status = "approved") →
      approval_put db (some ⟨some (.jlist [i])⟩) =
        (⟨400, "Invalid logged activities or no pending logged activities in request"⟩,
         db)) := by
  constructor
  · intro hfind hst hred hs
    have huuid : la.uuid = i := by
      have := List.find?_some hfind
      simpa using this
    have hcol : collect_eligible db [i] = [la] := by
      unfold collect_eligible
      simp [eligible_step, hfind, hst, hred]
    have hcol2 : collect_eligible db [i, i] = [la] := by
      unfold collect_eligible
      simp [eligible_step, hfind, hst, hred]
    have h1 : approval_put db (some ⟨some (.jlist [i])⟩) =
        (⟨200, "Activity edited successfully"⟩, approve_one db la) := by
      unfold approval_put
      simp only [IdsValue.pyLen, hcol]
      simp [List.isEmpty]
    have h2 : approval_put db (some ⟨some (.jlist [i, i])⟩) =
        (⟨200, "Activity edited successfully"⟩, approve_one db la) := by
      unfold approval_put
      simp only [IdsValue.pyLen, hcol2]
      simp [List.isEmpty]
    refine ⟨by rw [h1], ?_, ?_, ?_, ?_⟩
    · rw [h1]
      show (approve_one db la).findSociety la.society_id = _
      rw [approve_one_findSociety, if_pos rfl, hs]
      rfl
    · rw [h1]
      show (approve_one db la).findLoggedActivity i = _
      rw [approve_one_findLoggedActivity, if_pos huuid.symm, hfind]
      rfl
    · intro u hu
      rw [h1]
      show (approve_one db la).findSociety u = _
      rw [approve_one_findSociety, if_neg hu]
    · rw [h2]
      show (approve_one db la).findSociety la.society_id = _
      rw [approve_one_findSociety, if_pos rfl, hs]
      rfl
  · intro hfind hbad
    have hcol : collect_eligible db [i] = [] := by
      unfold collect_eligible
      rcases hbad with h | h | h | h <;> simp [eligible_step, hfind, h]
    unfold approval_put
    simp only [IdsValue.pyLen, hcol]
    simp [List.isEmpty]

/-- Witness for C2: in the concrete store, approving pending item `la1`
(value 25) credits society `s1` 100 to 125 exactly once (also under a
duplicated id), and approving the already-approved `la2` fails and
leaves the store unchanged. -/
theorem logged_activity_approval_credits_once_witness :
    (approval_put exDB (some ⟨some (.jlist ["la1"])⟩)).2.findSociety "s1" =
      some (exSociety.creditTotal 25) ∧
    (approval_put exDB
        (some ⟨some (.jlist ["la1", "la1"])⟩)).2.findSociety "s1" =
      some (exSociety.creditTotal 25) ∧
    approval_put exDB (some ⟨some (.jlist ["la2"])⟩) =
      (⟨400, "Invalid logged activities or no pending logged activities in request"⟩,
       exDB) :=
  ⟨((logged_activity_approval_credits_once exDB "la1" exPendingLA
      exSociety).1 (by decide) rfl rfl (by decide)).2.1,
   ((logged_activity_approval_credits_once exDB "la1" exPendingLA
      exSociety).1 (by decide) rfl rfl (by decide)).2.2.2.2,
   (logged_activity_approval_credits_once exDB "la2" exApprovedLA
      exSociety).2 (by decide) (Or.inr (Or.inr (Or.inr rfl)))⟩

/-- C3 counterexample: a non-list `loggedActivitiesIds` value of length
21 fails the size guard with Forbidden (403), not BadInput (400), because
the `len > 20` check runs before the `isinstance(list)` check. -/
theorem bulk_approval_nonlist_forbidden :
    approval_put exDB (some ⟨some (.jstr "aaaaaaaaaaaaaaaaaaaaa")⟩) =
      (⟨403, "Sorry, you can not approve more than 20 logged_activities at a go"⟩,
       exDB) ∧
    (approval_put exDB
        (some ⟨some (.jstr "aaaaaaaaaaaaaaaaaaaaa")⟩)).1.code ≠ 400 := by
  decide

/-- C3 (amended): any `loggedActivitiesIds` value longer than 20 — list
or not — fails Forbidden before any record is modified; an empty list or
a non-list value of length at most 20 fails BadInput; a missing value
fails BadInput; resolvable pending unredeemed ids form the deduplicated
eligible set, and when it is empty the call fails BadInput; otherwise
exactly the eligible items become approved and each society is credited
with the summed values of its eligible items, every other record being
left unchanged. -/
theorem bulk_approval_flow (db : DB) (p : ApprovalPayload) :
    (∀ idsv, p.loggedActivitiesIds = some idsv → idsv.pyLen > 20 →
      approval_put db (some p) =
        (⟨403, "Sorry, you can not approve more than 20 logged_activities at a go"⟩,
         db)) ∧
    (∀ s, p.loggedActivitiesIds = some (.jstr s) → s.length ≤ 20 →
      approval_put db (some p) =
        (⟨400, "A List/Array with at least one logged activity id is needed!"⟩,
         db)) ∧
    (p.loggedActivitiesIds = some (.jlist []) →
      approval_put db (some p) =
        (⟨400, "A List/Array with at least one logged activity id is needed!"⟩,
         db)) ∧
    (p.loggedActivitiesIds = none →
      approval_put db (some p) = (⟨400, "loggedActivitiesIds is required"⟩, db)) ∧
    (∀ ids, p.loggedActivitiesIds = some (.jlist ids) → ids ≠ [] →
      ids.length ≤ 20 → collect_eligible db ids = [] →
      approval_put db (some p) =
        (⟨400, "Invalid logged activities or no pending logged activities in request"⟩,
         db)) ∧
    (∀ ids, p.loggedActivitiesIds = some (.jlist ids) → ids ≠ [] →
      ids.length ≤ 20 → collect_eligible db ids ≠ [] →
      (approval_put db (some p)).1 = ⟨200, "Activity edited successfully"⟩ ∧
      (approval_put db (some p)).2 =
        (collect_eligible db ids).foldl approve_one db ∧
      (∀ la ∈ collect_eligible db ids,
        (approval_put db (some p)).2.findLoggedActivity la.uuid =
          some { la with status := "approved" } ∧
        la.redeemed = false ∧ la.status ≠ "rejected" ∧
        la.status ≠ "in review" ∧ la.status ≠ "approved") ∧
      (∀ j, ((collect_eligible db ids).all fun la => !(la.uuid == j)) = true →
        (approval_put db (some p)).2.findLoggedActivity j =
          db.findLoggedActivity j) ∧
      (∀ u s, db.findSociety u = some s →
        (approval_put db (some p)).2.findSociety u =
          some (s.creditTotal (society_credit_sum u
            (collect_eligible db ids))))) := by
  refine ⟨?_, ?_, ?_, ?_, ?_, ?_⟩
  · intro idsv hp hlen
    unfold approval_put
    simp only [hp]
    rw [if_pos hlen]
  · intro s hp hlen
    unfold approval_put
    simp only [hp]
    rw [if_neg (by simpa [IdsValue.pyLen] using Nat.not_lt.mpr hlen)]
  · intro hp
    unfold approval_put
    simp only [hp]
    simp [IdsValue.pyLen, List.isEmpty]
  · intro hp
    unfold approval_put
    simp only [hp]
  · intro ids hp hne hlen hcol
    unfold approval_put
    simp only [hp, hcol]
    rw [if_neg (by simpa [IdsValue.pyLen] using Nat.not_lt.mpr hlen)]
    simp [List.isEmpty_iff, hne]
  · intro ids hp hne hlen hcol
    have heq : approval_put db (some p) =
        (⟨200, "Activity edited successfully"⟩,
         (collect_eligible db ids).foldl approve_one db) := by
      unfold approval_put
      cases hc : collect_eligible db ids with
      | nil => exact absurd hc hcol
      | cons a rest =>
        simp only [hp, hc]
        rw [if_neg (by simpa [IdsValue.pyLen] using Nat.not_lt.mpr hlen)]
        simp [List.isEmpty_iff, hne]
    refine ⟨by rw [heq], by rw [heq], ?_, ?_, ?_⟩
    · intro la hla
      have hsound := collect_eligible_sound db ids la hla
      have hany : ((collect_eligible db ids).any
          fun x => x.uuid == la.uuid) = true := by
        refine List.any_eq_true.mpr ⟨la, hla, ?_⟩
        simp
      refine ⟨?_, hsound.2.2.1, hsound.2.2.2.1, hsound.2.2.2.2.1,
        hsound.2.2.2.2.2⟩
      rw [heq]
      show ((collect_eligible db ids).foldl approve_one
        db).findLoggedActivity la.uuid = _
      rw [foldl_approve_findLoggedActivity, if_pos hany, hsound.1]
      rfl
    · intro j hall
      rw [heq]
      show ((collect_eligible db ids).foldl approve_one
        db).findLoggedActivity j = _
      rw [foldl_approve_findLoggedActivity, if_neg]
      intro hany
      rcases List.any_eq_true.mp hany with ⟨la, hla, hbeq⟩
      have := List.all_eq_true.mp hall la hla
      simp at hbeq this
      exact this hbeq
    · intro u s hs
      rw [heq]
      show ((collect_eligible db ids).foldl approve_one db).findSociety u = _
      rw [foldl_approve_findSociety, hs]
      rfl

/-- Witness for C3: a 21-id batch fails Forbidden untouched, the empty
list fails BadInput, an all-ineligible batch fails BadInput, and a mixed
batch approves exactly its eligible item and credits its society. -/
theorem bulk_approval_flow_witness :
    approval_put exDB
        (some ⟨some (.jlist ["i1", "i2", "i3", "i4", "i5", "i6", "i7",
          "i8", "i9", "i10", "i11", "i12", "i13", "i14", "i15", "i16",
          "i17", "i18", "i19", "i20", "i21"])⟩) =
      (⟨403, "Sorry, you can not approve more than 20 logged_activities at a go"⟩,
       exDB) ∧
    approval_put exDB (some ⟨some (.jlist [])⟩) =
      (⟨400, "A List/Array with at least one logged activity id is needed!"⟩,
       exDB) ∧
    approval_put exDB (some ⟨some (.jlist ["la2", "la3", "missing"])⟩) =
      (⟨400, "Invalid logged activities or no pending logged activities in request"⟩,
       exDB) ∧
    (approval_put exDB
        (some ⟨some (.jlist ["la1", "la2"])⟩)).2.findSociety "s1" =
      some (exSociety.creditTotal
        (society_credit_sum "s1" (collect_eligible exDB ["la1", "la2"]))) :=
  ⟨(bulk_approval_flow exDB _).1 _ rfl (by decide),
   (bulk_approval_flow exDB _).2.2.1 rfl,
   (bulk_approval_flow exDB _).2.2.2.2.1 _ rfl (by decide) (by decide)
     (by decide),
   ((bulk_approval_flow exDB _).2.2.2.2.2 _ rfl (by decide) (by decide)
     (by decide)).2.2.2.2 "s1" exSociety (by decide)⟩

/-- C6: a submission whose resolved activity date is exactly 30 days old
passes the staleness guard and succeeds; one whose date is 31 or more
days old fails with the stale error (on both the ad-hoc date path and the
pre-existing activity path); and on the `(activity_type_id, date)` path a
date strictly in the future fails with the invalid-date error before the
activity type is resolved and before the staleness check. -/
theorem valuation_staleness_window (db : DB) (today : Int)
    (data : LogActivityInput) :
    (∀ d, strTruthy data.activity_id = false → data.date = some d →
      today < d →
      parse_log_activity_fields db today data =
        .resp ⟨422, "Invalid activity date"⟩) ∧
    (∀ atid atype, strTruthy data.activity_id = false →
      data.date = some (today - 30) → data.activity_type_id = some atid →
      db.findActivityType atid = some atype →
      atype.supports_multiple_participants = false →
      parse_log_activity_fields db today data =
        .ok ⟨none, atype, today - 30, atype.value⟩) ∧
    (∀ d atid atype, strTruthy data.activity_id = false →
      data.date = some d → d ≤ today - 31 →
      data.activity_type_id = some atid →
      db.findActivityType atid = some atype →
      parse_log_activity_fields db today data =
        .resp ⟨422, "You\x27re late. That activity happened more than 30 days ago"⟩) ∧
    (∀ aid act atype, data.activity_id = some aid → aid ≠ "" →
      db.findActivity aid = some act →
      db.findActivityType act.activity_type_id = some atype →
      (atype.supports_multiple_participants = true →
        intTruthy data.no_of_participants = true ∧
        strTruthy data.description = true) →
      act.activity_date ≤ today - 31 →
      parse_log_activity_fields db today data =
        .resp ⟨422, "You\x27re late. That activity happened more than 30 days ago"⟩) ∧
    (∀ aid act atype, data.activity_id = some aid → aid ≠ "" →
      db.findActivity aid = some act →
      db.findActivityType act.activity_type_id = some atype →
      (atype.supports_multiple_participants = true →
        intTruthy data.no_of_participants = true ∧
        strTruthy data.description = true) →
      act.activity_date = today - 30 →
      ∃ rr, parse_log_activity_fields db today data = .ok rr ∧
        rr.activity_date = today - 30 ∧ rr.activity_type = atype) := by
  have hmulti_guard : ∀ (atype : ActivityType),
      (atype.supports_multiple_participants = true →
        intTruthy data.no_of_participants = true ∧
        strTruthy data.description = true) →
      (atype.supports_multiple_participants &&
        !(intTruthy data.no_of_participants &&
          strTruthy data.description)) = false := by
    intro atype hg
    by_cases hm : atype.supports_multiple_participants = true
    · rcases hg hm with ⟨h1, h2⟩
      simp [hm, h1, h2]
    · simp [Bool.eq_false_iff.mpr hm]
  refine ⟨?_, ?_, ?_, ?_, ?_⟩
  · intro d ha hd hfut
    unfold parse_log_activity_fields
    rw [if_neg (by simp [ha])]
    simp only [hd]
    rw [if_pos hfut]
  · intro atid atype ha hd hat htype hm
    unfold parse_log_activity_fields
    rw [if_neg (by simp [ha])]
    simp only [hd, hat, htype]
    rw [if_neg (by omega)]
    unfold finish_parse
    rw [if_neg (by omega)]
    rw [if_pos (by simp [hm])]
  · intro d atid atype ha hd hold hat htype
    unfold parse_log_activity_fields
    rw [if_neg (by simp [ha])]
    simp only [hd, hat, htype]
    rw [if_neg (by omega)]
    unfold finish_parse
    rw [if_pos (by omega)]
  · intro aid act atype hdata haid hact htype hguard hold
    have hcnd := hmulti_guard atype hguard
    unfold parse_log_activity_fields
    rw [if_pos (by simp [hdata, strTruthy, haid])]
    simp only [hdata, Option.getD_some, hact, htype]
    rw [if_neg (by simpa using hcnd)]
    unfold finish_parse
    rw [if_pos (by omega)]
  · intro aid act atype hdata haid hact htype hguard hdate
    have hcnd := hmulti_guard atype hguard
    have hbranch : parse_log_activity_fields db today data =
        finish_parse data today (some act) atype act.activity_date := by
      unfold parse_log_activity_fields
      rw [if_pos (by simp [hdata, strTruthy, haid])]
      simp only [hdata, Option.getD_some, hact, htype]
      rw [if_neg (by simpa using hcnd)]
    rw [hbranch]
    unfold finish_parse
    rw [if_neg (by omega)]
    by_cases hm : atype.supports_multiple_participants = true
    · rcases hg : data.no_of_participants with _ | n
      · rcases hguard hm with ⟨h1, _⟩
        rw [hg] at h1
        simp [intTruthy] at h1
      · rw [if_neg (by simp [hm])]
        simp only [hg]
        exact ⟨_, rfl, hdate, rfl⟩
    · rw [if_pos (by simp [Bool.eq_false_iff.mpr hm])]
      exact ⟨_, rfl, hdate, rfl⟩

/-- Witness for C6: with today = 100, a submission dated 70 (exactly 30
days old) succeeds, one dated 69 fails stale, one dated 101 fails the
future-date check, and the stored activity `act1` dated 70 also parses. -/
theorem valuation_staleness_window_witness :
    parse_log_activity_fields exDB 100
        { name := none, description := none, photo := none,
          activity_id := none, activity_type_id := some "at1",
          date := some 101, no_of_participants := none } =
      .resp ⟨422, "Invalid activity date"⟩ ∧
    parse_log_activity_fields exDB 100
        { name := none, description := none, photo := none,
          activity_id := none, activity_type_id := some "at1",
          date := some 70, no_of_participants := none } =
      .ok ⟨none, exTypeSingle, 70, 10⟩ ∧
    parse_log_activity_fields exDB 100
        { name := none, description := none, photo := none,
          activity_id := none, activity_type_id := some "at1",
          date := some 69, no_of_participants := none } =
      .resp ⟨422, "You\x27re late. That activity happened more than 30 days ago"⟩ ∧
    parse_log_activity_fields exDB 131
        { name := none, description := none, photo := none,
          activity_id := some "act1", activity_type_id := none,
          date := none, no_of_participants := none } =
      .resp ⟨422, "You\x27re late. That activity happened more than 30 days ago"⟩ :=
  ⟨(valuation_staleness_window exDB 100 _).1 101 rfl rfl (by omega),
   (valuation_staleness_window exDB 100 _).2.1 "at1" exTypeSingle rfl rfl
     rfl (by decide) rfl,
   (valuation_staleness_window exDB 100 _).2.2.1 69 "at1" exTypeSingle rfl
     rfl (by omega) rfl (by decide),
   (valuation_staleness_window exDB 131 _).2.2.2.1 "act1" exActivity
     exTypeSingle rfl (by decide) (by decide) (by decide) (by decide)
     (by decide)⟩

/-- C7: when the resolved activity type supports multiple participants, a
submission must carry both a non-empty description and a non-zero
participant count — on the pre-existing activity path the valuation
itself fails with the 400 error otherwise, and on the
`activity_type_id` path the schema validator only passes when
participants, date and description are all present — and a successful
valuation computes value = base value * participants, while a
single-participant type yields exactly the base value. -/
theorem multi_participant_valuation (db : DB) (today : Int)
    (data : LogActivityInput) :
    (∀ aid act atype, data.activity_id = some aid → aid ≠ "" →
      db.findActivity aid = some act →
      db.findActivityType act.activity_type_id = some atype →
      atype.supports_multiple_participants = true →
      (intTruthy data.no_of_participants = false ∨
        strTruthy data.description = false) →
      parse_log_activity_fields db today data =
        .resp ⟨400, "Please send the number of interviewees and their names in the description"⟩) ∧
    (∀ atid, data.activity_type_id = some atid → atid ≠ "" →
      (multi_participant_activity_ids db).contains atid = true →
      validate_logged_activity db data = .ok →
      intTruthy data.no_of_participants = true ∧
      strTruthy data.description = true ∧ data.date.isSome = true) ∧
    (∀ r, parse_log_activity_fields db today data = .ok r →
      r.activity_type.supports_multiple_participants = true →
      ∃ n, data.no_of_participants = some n ∧
        r.activity_value = r.activity_type.value * n) ∧
    (∀ r, parse_log_activity_fields db today data = .ok r →
      r.activity_type.supports_multiple_participants = false →
      r.activity_value = r.activity_type.value) := by
  refine ⟨?_, ?_, ?_, ?_⟩
  · intro aid act atype hdata haid hact htype hm hmiss
    unfold parse_log_activity_fields
    rw [if_pos (by simp [hdata, strTruthy, haid])]
    simp only [hdata, Option.getD_some, hact, htype]
    rw [if_pos ?_]
    rcases hmiss with h | h <;> simp [hm, h]
  · intro atid hatid hne hcont hok
    unfold validate_logged_activity at hok
    simp only [hatid] at hok
    have hstr : strTruthy (some atid) = true := by simp [strTruthy, hne]
    by_cases hc1 : ((strTruthy (some atid) && strTruthy data.activity_id) ||
        (!strTruthy (some atid) && !strTruthy data.activity_id)) = true
    · rw [if_pos hc1] at hok
      simp at hok
    · rw [if_neg hc1] at hok
      by_cases hc2 : (strTruthy (some atid) &&
          !(data.date.isSome && strTruthy data.description)) = true
      · rw [if_pos hc2] at hok
        simp at hok
      · rw [if_neg hc2] at hok
        by_cases hc3 : ((multi_participant_activity_ids db).contains atid &&
            !intTruthy data.no_of_participants) = true
        · rw [if_pos hc3] at hok
          simp at hok
        · have h3 : intTruthy data.no_of_participants = true := by
            rcases Bool.eq_false_or_eq_true
              (intTruthy data.no_of_participants) with h | h
            · exact h
            · exact absurd (by rw [hcont, h]; rfl) hc3
          have h2 : (data.date.isSome && strTruthy data.description) = true := by
            rcases Bool.eq_false_or_eq_true
              (data.date.isSome && strTruthy data.description) with h | h
            · exact h
            · exact absurd (by simp [hstr, h]) hc2
          have h2' : data.date.isSome = true ∧
              strTruthy data.description = true := by simpa using h2
          exact ⟨h3, h2'.2, h2'.1⟩
  · intro r hok hm
    rcases parse_ok_finish db today data r hok with ⟨act, atype, d, hfin⟩
    rcases finish_parse_ok_facts data today act atype d r hfin with
      ⟨_, h2, _, _, h5⟩
    rcases h5 (by rw [← h2]; exact hm) with ⟨n, hn, hv⟩
    refine ⟨n, hn, ?_⟩
    rw [hv, h2]
  · intro r hok hm
    rcases parse_ok_finish db today data r hok with ⟨act, atype, d, hfin⟩
    rcases finish_parse_ok_facts data today act atype d r hfin with
      ⟨_, h2, _, h4, _⟩
    rw [h4 (by rw [← h2]; exact hm), h2]

/-- Witness for C7: a multi-participant type of value 10 with 3
participants values the submission at 30; without participants the schema
rejects it; the single-participant type values it at 10. -/
theorem multi_participant_valuation_witness :
    (∃ n, (some (3 : Int)) = some n ∧ (30 : Int) = 10 * n) ∧
    parse_log_activity_fields exDB 100
        { name := none, description := some "interviews", photo := none,
          activity_id := none, activity_type_id := some "at2",
          date := some 80, no_of_participants := some 3 } =
      .ok ⟨none, exTypeMulti, 80, 30⟩ ∧
    (intTruthy (none : Option Int) = true ∧ strTruthy (some "d") = true ∧
        (some (80 : Int)).isSome = true →
      False) ∧
    parse_log_activity_fields exDB 100
        { name := none, description := none, photo := none,
          activity_id := none, activity_type_id := some "at1",
          date := some 80, no_of_participants := none } =
      .ok ⟨none, exTypeSingle, 80, 10⟩ := by
  refine ⟨?_, by decide, ?_, by decide⟩
  · rcases (multi_participant_valuation exDB 100
        { name := none, description := some "interviews", photo := none,
          activity_id := none, activity_type_id := some "at2",
          date := some 80, no_of_participants := some 3 }).2.2.1
        ⟨none, exTypeMulti, 80, 30⟩ (by decide) (by decide) with ⟨n, hn, hv⟩
    exact ⟨n, hn, hv⟩
  · intro ⟨h1, _, _⟩
    simp [intTruthy] at h1

/-- C8: editing or deleting a logged activity whose status is not
`in review` always fails (401/403) leaving the store unchanged; a
non-owner's lookup never resolves the item, so the calls fail 404 and
change nothing; and a successful edit re-runs the valuation on the
backfilled inputs and overwrites the stored value with the new computed
value. -/
theorem edit_delete_guards (db : DB) (today : Int) (cu id : String)
    (payload : Option LogActivityInput) :
    (∀ la, db.findLoggedActivityFor id cu = some la →
      la.status ≠ "in review" →
      (logged_activity_put db today cu id payload).2 = db ∧
      (∃ r, (logged_activity_put db today cu id payload).1 = .resp r ∧
        r.code ≠ 200 ∧ r.code ≠ 204)) ∧
    (∀ la, db.findLoggedActivityFor id cu = some la →
      la.status ≠ "in review" →
      logged_activity_delete db cu id =
        (⟨403, "You are not allowed to perform this operation"⟩, db)) ∧
    (db.findLoggedActivityFor id cu = none →
      (logged_activity_put db today cu id payload).2 = db ∧
      logged_activity_delete db cu id =
        (⟨404, "Logged Activity does not exist!"⟩, db)) ∧
    (∀ result la parsed, payload = some result →
      validate_logged_activity db result = .ok →
      db.findLoggedActivityFor id cu = some la → la.status = "in review" →
      parse_log_activity_fields db today (backfill result la) = .ok parsed →
      logged_activity_put db today cu id payload =
        (.resp ⟨200, "Activity edited successfully"⟩,
         db.updateLoggedActivityFor id cu
           (apply_edit (backfill result la) parsed)) ∧
      ((logged_activity_put db today cu id
          payload).2.findLoggedActivityFor id cu).map LoggedActivity.value =
        some parsed.activity_value) := by
  refine ⟨?_, ?_, ?_, ?_⟩
  · intro la hfind hst
    cases payload with
    | none => exact ⟨rfl, ⟨400, "Data for creation must be provided."⟩,
        rfl, by decide, by decide⟩
    | some result =>
      simp only [logged_activity_put]
      cases hv : validate_logged_activity db result with
      | error m =>
        exact ⟨rfl, ⟨400, m⟩, rfl, by simp, by simp⟩
      | ok =>
        simp only [hfind]
        rw [if_pos (by simp [hst])]
        exact ⟨rfl,
          ⟨401, "Not allowed. Activity is already in pre-approval."⟩,
          rfl, by decide, by decide⟩
  · intro la hfind hst
    simp only [logged_activity_delete, hfind]
    rw [if_pos (by simp [hst])]
  · intro hfind
    constructor
    · cases payload with
      | none => rfl
      | some result =>
        simp only [logged_activity_put]
        cases hv : validate_logged_activity db result with
        | error m => rfl
        | ok => simp only [hfind]
    · simp only [logged_activity_delete, hfind]
  · intro result la parsed hpay hv hfind hst hparse
    have heq : logged_activity_put db today cu id payload =
        (.resp ⟨200, "Activity edited successfully"⟩,
         db.updateLoggedActivityFor id cu
           (apply_edit (backfill result la) parsed)) := by
      subst hpay
      simp only [logged_activity_put, hv, hfind]
      rw [if_neg (by simp [hst])]
      simp only [hparse]
    refine ⟨heq, ?_⟩
    rw [heq]
    show ((db.updateLoggedActivityFor id cu
      (apply_edit (backfill result la) parsed)).findLoggedActivityFor id
        cu).map LoggedActivity.value = _
    rw [DB.findLoggedActivityFor_updateLoggedActivityFor db id cu
      (apply_edit (backfill result la) parsed) (fun a => ⟨rfl, rfl⟩), hfind]
    rfl

/-- Witness for C8: in the concrete store, the pending item `la1` cannot
be edited or deleted, a missing id fails 404, and editing the in-review
item `la3` against the single-participant type of value 10 succeeds and
stores the recomputed value. -/
theorem edit_delete_guards_witness :
    (logged_activity_put exDB 100 "u1" "la1" (some exEditInput)).2 = exDB ∧
    logged_activity_delete exDB "u1" "la1" =
      (⟨403, "You are not allowed to perform this operation"⟩, exDB) ∧
    logged_activity_delete exDB "u1" "missing" =
      (⟨404, "Logged Activity does not exist!"⟩, exDB) ∧
    logged_activity_put exDB 100 "u1" "la3" (some exEditInput) =
      (.resp ⟨200, "Activity edited successfully"⟩,
       exDB.updateLoggedActivityFor "la3" "u1"
         (apply_edit (backfill exEditInput exInReviewLA)
           ⟨none, exTypeSingle, 80, 10⟩)) :=
  ⟨((edit_delete_guards exDB 100 "u1" "la1" (some exEditInput)).1
      exPendingLA (by decide) (by decide)).1,
   (edit_delete_guards exDB 100 "u1" "la1" (some exEditInput)).2.1
     exPendingLA (by decide) (by decide),
   ((edit_delete_guards exDB 100 "u1" "missing"
      (some exEditInput)).2.2.1 (by decide)).2,
   ((edit_delete_guards exDB 100 "u1" "la3" (some exEditInput)).2.2.2
      exEditInput exInReviewLA ⟨none, exTypeSingle, 80, 10⟩ rfl (by decide)
      (by decide) rfl (by decide)).1⟩

/-! ### Ledger framing for every operation of the core -/

theorem logged_activities_post_societies (db : DB) (today : Int)
    (user : User) (nu : String) (payload : Option LogActivityInput) :
    ((logged_activities_post db today user nu payload).2).societies =
      db.societies := by
  unfold logged_activities_post
  repeat' split
  all_goals rfl

theorem logged_activity_put_societies (db : DB) (today : Int)
    (cu id : String) (payload : Option LogActivityInput) :
    ((logged_activity_put db today cu id payload).2).societies =
      db.societies := by
  unfold logged_activity_put
  repeat' split
  all_goals rfl

theorem logged_activity_delete_societies (db : DB) (cu id : String) :
    ((logged_activity_delete db cu id).2).societies = db.societies := by
  unfold logged_activity_delete
  repeat' split
  all_goals rfl

theorem secretary_review_put_societies (db : DB) (id : String)
    (payload : Option SecretaryPayload) :
    ((secretary_review_put db id payload).2).societies = db.societies := by
  unfold secretary_review_put
  repeat' split
  all_goals rfl

theorem rejection_put_societies (db : DB) (id : Option String) :
    ((rejection_put db id).2).societies = db.societies := by
  unfold rejection_put
  repeat' split
  all_goals rfl

theorem approval_put_cases (db : DB) (payload : Option ApprovalPayload) :
    (approval_put db payload).2 = db ∨
    ∃ ids, (approval_put db payload).2 =
      (collect_eligible db ids).foldl approve_one db := by
  cases payload with
  | none => exact Or.inl (by first | rfl | trivial)
  | some p =>
    cases hids : p.loggedActivitiesIds with
    | none =>
      simp only [approval_put, hids]
      exact Or.inl (by first | rfl | trivial)
    | some idsv =>
      cases idsv with
      | jstr s =>
        simp only [approval_put, hids]
        by_cases hlen : (IdsValue.jstr s).pyLen > 20
        · rw [if_pos hlen]
          exact Or.inl (by first | rfl | trivial)
        · rw [if_neg hlen]
          exact Or.inl (by first | rfl | trivial)
      | jlist ids =>
        simp only [approval_put, hids]
        by_cases hlen : (IdsValue.jlist ids).pyLen > 20
        · rw [if_pos hlen]
          exact Or.inl (by first | rfl | trivial)
        · rw [if_neg hlen]
          by_cases hemp : ids.isEmpty = true
          · rw [if_pos hemp]
            exact Or.inl (by first | rfl | trivial)
          · rw [if_neg hemp]
            cases hc : collect_eligible db ids with
            | nil =>
              simp only [hc]
              exact Or.inl (by first | rfl | trivial)
            | cons a rest =>
              simp only [hc]
              exact Or.inr ⟨ids, by rw [← hc]⟩

theorem redemption_numeration_cases (db : DB) (rid : Option String)
    (payload : Option RedemptionPayload) :
    ((redemption_numeration_put db rid payload).2).societies =
      db.societies ∨
    ∃ ridv p r sid, rid = some ridv ∧ payload = some p ∧
      p.status = some "approved" ∧ db.findRedemption ridv = some r ∧
      (redemption_numeration_put db rid payload).2 =
        (db.updateSociety sid (fun x => x.creditUsed r.value)
          ).updateRedemption ridv (fun x => { x with status := "approved" }) := by
  cases payload with
  | none => exact Or.inl (by first | rfl | trivial)
  | some p =>
    cases rid with
    | none => exact Or.inl (by first | rfl | trivial)
    | some ridv =>
      cases hst : p.status with
      | none =>
        simp only [redemption_numeration_put, hst]
        exact Or.inl (by first | rfl | trivial)
      | some st =>
        simp only [redemption_numeration_put, hst]
        cases hfind : db.findRedemption ridv with
        | none =>
          simp only [hfind]
          exact Or.inl (by first | rfl | trivial)
        | some r =>
          simp only [hfind]
          by_cases happ : (st == "approved") = true
          · have hst' : st = "approved" := by simpa using happ
            subst hst'
            rw [if_pos happ]
            cases hu : db.findUser r.user_id with
            | none =>
              simp only [hu]
              exact Or.inl (by first | rfl | trivial)
            | some user =>
              simp only [hu]
              cases husoc : user.society_id with
              | none =>
                simp only [husoc]
                exact Or.inl (by first | rfl | trivial)
              | some sid =>
                simp only [husoc]
                cases hsoc : db.findSociety sid with
                | none =>
                  simp only [hsoc]
                  exact Or.inl (by first | rfl | trivial)
                | some s0 =>
                  simp only [hsoc]
                  exact Or.inr ⟨ridv, p, r, sid, rfl, rfl, hst, hfind, rfl⟩
          · rw [if_neg happ]
            exact Or.inl (by first | rfl | trivial)

/-- C5 counterexample: starting from a store in which every stored
activity and redemption value is nonnegative, three core operations —
submitting an activity with `no_of_participants = -3` against the
value-10 multi-participant type (accepted, since validation only checks
truthiness, and valued at `-30`), secretary-reviewing it to pending, and
bulk-approving it — drive society `s1`'s `total_points` from 100 down to
70 and its remaining balance from 70 down to 40, with no redemption
operation in the trace.  So an operation of the core does decrease
`total_points`, and an activity approval (not a `used_points` credit)
lowers the remaining balance, refuting the unconditional claim. -/
theorem activity_approval_decreases_total_points :
    (∀ la ∈ exDB.logged_activities, 0 ≤ la.value) ∧
    (∀ r ∈ exDB.redemptions, 0 ≤ r.value) ∧
    (exDB.findSociety "s1").map Society.total_points = some 100 ∧
    (exDB.findSociety "s1").map Society.remaining_points = some 70 ∧
    ((exNegOps.foldl applyOp exDB).findSociety "s1").map
      Society.total_points = some 70 ∧
    ((exNegOps.foldl applyOp exDB).findSociety "s1").map
      Society.remaining_points = some 40 ∧
    (exNegOps.all fun op => !op.isRedemptionOp) = true := by
  decide

/-- C5 (amended): after any single operation of the embedded core, every
society's `remaining_points` equals `total_points - used_points` (a
derived read, never stored, so it holds before and after every
operation).  The accumulate-only property is conditional: when every
stored logged-activity and redemption value is nonnegative, no operation
decreases `total_points` or `used_points`, and the only operation that
can lower a remaining balance is a redemption approval crediting
`used_points`.  (Unconditionally it fails: negative stored values are
reachable through the core's own truthiness-only validation, and
approving them decreases the ledger fields.) -/
theorem ledger_monotone_and_consistent (db : DB) (op : CoreOp)
    (hla : ∀ la ∈ db.logged_activities, 0 ≤ la.value)
    (hred : ∀ r ∈ db.redemptions, 0 ≤ r.value) :
    ∀ u s, db.findSociety u = some s →
      ∃ t, (applyOp db op).findSociety u = some t ∧
        s.total_points ≤ t.total_points ∧
        s.used_points ≤ t.used_points ∧
        t.remaining_points = t.total_points - t.used_points ∧
        s.remaining_points = s.total_points - s.used_points ∧
        (t.remaining_points < s.remaining_points →
          ∃ rid p, op = CoreOp.numerateRedemption rid (some p) ∧
            p.status = some "approved") := by
  intro u s hs
  have unchanged : ∀ db2 : DB, db2.societies = db.societies →
      ∃ t, db2.findSociety u = some t ∧
        s.total_points ≤ t.total_points ∧
        s.used_points ≤ t.used_points ∧
        t.remaining_points = t.total_points - t.used_points ∧
        s.remaining_points = s.total_points - s.used_points ∧
        (t.remaining_points < s.remaining_points →
          ∃ rid p, op = CoreOp.numerateRedemption rid (some p) ∧
            p.status = some "approved") := by
    intro db2 h2
    refine ⟨s, ?_, le_refl _, le_refl _, rfl, rfl,
      fun hlt => absurd hlt (lt_irrefl _)⟩
    rw [DB.findSociety_eq_of_societies db2 db h2 u]
    exact hs
  cases op with
  | submitActivity today user nu payload =>
    exact unchanged _ (logged_activities_post_societies db today user nu payload)
  | editActivity today cu id payload =>
    exact unchanged _ (logged_activity_put_societies db today cu id payload)
  | deleteActivity cu id =>
    exact unchanged _ (logged_activity_delete_societies db cu id)
  | secretaryReview id payload =>
    exact unchanged _ (secretary_review_put_societies db id payload)
  | rejectActivity id =>
    exact unchanged _ (rejection_put_societies db id)
  | approveActivities payload =>
    rcases approval_put_cases db payload with h | ⟨ids, heq⟩
    · refine unchanged _ ?_
      show (approval_put db payload).2.societies = db.societies
      rw [h]
    · have hsum : 0 ≤ society_credit_sum u (collect_eligible db ids) := by
        unfold society_credit_sum
        apply List.sum_nonneg
        intro x hx
        rcases List.mem_map.mp hx with ⟨la2, hla2, hval⟩
        have hmem := (collect_eligible_sound db ids la2
          (List.mem_of_mem_filter hla2)).2.1
        rw [← hval]
        exact hla la2 hmem
      refine ⟨s.creditTotal (society_credit_sum u (collect_eligible db ids)),
        ?_, ?_, le_refl _, rfl, rfl, ?_⟩
      · show (approval_put db payload).2.findSociety u = _
        rw [heq, foldl_approve_findSociety, hs]
        rfl
      · show s.total_points ≤ s.total_points +
          society_credit_sum u (collect_eligible db ids)
        exact le_add_of_nonneg_right hsum
      · intro hlt
        exfalso
        have hmono : s.remaining_points ≤
            (s.creditTotal (society_credit_sum u
              (collect_eligible db ids))).remaining_points := by
          simp only [Society.remaining_points, Society.total_points,
            Society.used_points, Society.creditTotal]
          omega
        exact absurd hlt (not_lt.mpr hmono)
  | numerateRedemption rid payload =>
    rcases redemption_numeration_cases db rid payload with
      h | ⟨ridv, p, r, sid, hrid, hp, hstat, hfind, heq⟩
    · exact unchanged _ h
    · have hval : 0 ≤ r.value := hred r (List.mem_of_find?_eq_some hfind)
      by_cases hu : u = sid
      · subst hu
        refine ⟨s.creditUsed r.value, ?_, le_refl _, ?_, rfl, rfl, ?_⟩
        · show (redemption_numeration_put db rid payload).2.findSociety u = _
          rw [heq, DB.findSociety_updateRedemption,
            DB.findSociety_updateSociety _ u u
              (fun x => x.creditUsed r.value) (fun x => rfl),
            if_pos rfl, hs]
          rfl
        · show s.used_points ≤ s.used_points + r.value
          exact le_add_of_nonneg_right hval
        · intro _
          exact ⟨rid, p, by rw [hp], hstat⟩
      · refine ⟨s, ?_, le_refl _, le_refl _, rfl, rfl,
          fun hlt => absurd hlt (lt_irrefl _)⟩
        show (redemption_numeration_put db rid payload).2.findSociety u = _
        rw [heq, DB.findSociety_updateRedemption,
          DB.findSociety_updateSociety _ sid u
            (fun x => x.creditUsed r.value) (fun x => rfl),
          if_neg hu]
        exact hs

/-- Witness for C5: the theorem applied to the concrete store and a
concrete bulk-approval step on the pending item `la1`. -/
theorem ledger_monotone_and_consistent_witness :
    ∃ t, (applyOp exDB (CoreOp.approveActivities
        (some ⟨some (.jlist ["la1"])⟩))).findSociety "s1" = some t ∧
      exSociety.total_points ≤ t.total_points ∧
      exSociety.used_points ≤ t.used_points ∧
      t.remaining_points = t.total_points - t.used_points ∧
      exSociety.remaining_points =
        exSociety.total_points - exSociety.used_points ∧
      (t.remaining_points < exSociety.remaining_points →
        ∃ rid p, CoreOp.approveActivities (some ⟨some (.jlist ["la1"])⟩) =
          CoreOp.numerateRedemption rid (some p) ∧
          p.status = some "approved") :=
  ledger_monotone_and_consistent exDB
    (CoreOp.approveActivities (some ⟨some (.jlist ["la1"])⟩))
    (by decide) (by decide) "s1" exSociety (by decide)

end AndelaSocieties
